import Mathlib

/-!
Shallow embedding of `GB50497Validator` (src/unnamed/part_000, a JavaScript
class validating excavation-pit sensor layouts against GB50497-2019).

Modelling conventions:
* JavaScript numbers are embedded as `ℚ`.  Every arithmetic operation the
  validator performs (+, -, *, /, comparisons, Math.max, Math.abs, **2) is
  exact rational arithmetic except `Math.sqrt`.  `Math.sqrt` appears only
  (a) in comparisons `sqrt d < c` / `sqrt d > c`, which we embed by the
  equivalent rational conditions using monotonicity of sqrt on nonnegative
  inputs (the radicand is always a sum of two squares, hence nonnegative),
  and (b) in the reported `maxDistance` / `range` numbers, for which we carry
  the squared value (the radicand) instead; comments at each site record the
  exact JS expression.
* JS division by zero yields Infinity; `ℚ` division by zero yields 0.  The
  validator divides only by the pit perimeter, which is positive for every
  valid configuration; theorems that depend on the quotient carry a
  positivity hypothesis.
* `config.type` and sensor categories are JS strings, embedded as `String`.
* The property accesses `this.monitoringRequirements[config.type]` (which
  throws a TypeError when `config.type` is not a key) and
  `...[config.safetyLevel]` (whose undefined result is caught by the
  `if (!requirements)` guard) are embedded as two nested `Option` lookups;
  `validateLayout` returns `Except JsError _`, where `.error .typeError`
  models the uncaught TypeError thrown on an unknown composition.
* The JS code mutates a shared `results` object; we thread the record
  explicitly, appending to the end of each message list exactly where the
  source `push`es.
-/

set_option maxHeartbeats 1600000

namespace GB50497

structure Dimensions where
  length : ℚ
  width : ℚ
  depth : ℚ
deriving DecidableEq

structure Config where
  type : String
  safetyLevel : ℚ
  dimensions : Dimensions
deriving DecidableEq

structure Position where
  x : ℚ
  y : ℚ
  z : ℚ
deriving DecidableEq

structure Sensor where
  type : String
  position : Position
deriving DecidableEq

structure RequirementSet where
  required : List String
  recommended : List String
  optional : List String
deriving DecidableEq

/-- `this.monitoringRequirements.soil` — per-safety-level table. -/
def requirementsSoil (level : ℚ) : Option RequirementSet :=
  if level = 1 then
    some { required := ["horizontal-displacement", "vertical-displacement",
                        "deep-horizontal", "support-force", "water-level",
                        "ground-settlement"],
           recommended := ["anchor-force"],
           optional := ["wall-internal-force", "pore-pressure", "soil-pressure"] }
  else if level = 2 then
    some { required := ["horizontal-displacement", "vertical-displacement",
                        "deep-horizontal", "support-force", "water-level",
                        "ground-settlement"],
           recommended := ["anchor-force"],
           optional := ["wall-internal-force", "pore-pressure"] }
  else if level = 3 then
    some { required := ["horizontal-displacement", "vertical-displacement",
                        "water-level"],
           recommended := ["deep-horizontal", "support-force", "ground-settlement"],
           optional := ["anchor-force"] }
  else none

/-- `this.monitoringRequirements.rock`. -/
def requirementsRock (level : ℚ) : Option RequirementSet :=
  if level = 1 then
    some { required := ["horizontal-displacement", "vertical-displacement",
                        "anchor-force", "ground-settlement"],
           recommended := ["water-level"],
           optional := [] }
  else if level = 2 then
    some { required := ["horizontal-displacement", "ground-settlement"],
           recommended := ["vertical-displacement", "anchor-force", "water-level"],
           optional := [] }
  else if level = 3 then
    some { required := ["horizontal-displacement"],
           recommended := ["ground-settlement"],
           optional := ["vertical-displacement", "anchor-force"] }
  else none

/-- `this.monitoringRequirements['soil-rock']`. -/
def requirementsSoilRock (level : ℚ) : Option RequirementSet :=
  if level = 1 then
    some { required := ["horizontal-displacement", "vertical-displacement",
                        "deep-horizontal", "support-force", "anchor-force",
                        "water-level", "ground-settlement"],
           recommended := [],
           optional := ["wall-internal-force", "pore-pressure"] }
  else if level = 2 then
    some { required := ["horizontal-displacement", "vertical-displacement",
                        "deep-horizontal", "support-force", "water-level",
                        "ground-settlement"],
           recommended := ["anchor-force"],
           optional := [] }
  else if level = 3 then
    some { required := ["horizontal-displacement", "vertical-displacement",
                        "water-level"],
           recommended := ["deep-horizontal", "support-force", "ground-settlement"],
           optional := ["anchor-force"] }
  else none

/-- `this.monitoringRequirements[t]`: `none` models the JS property access
returning `undefined` for a composition outside {soil, rock, soil-rock}
(subscripting that `undefined` then throws). -/
def monitoringRequirements (t : String) : Option (ℚ → Option RequirementSet) :=
  if t = "soil" then some requirementsSoil
  else if t = "rock" then some requirementsRock
  else if t = "soil-rock" then some requirementsSoilRock
  else none

/-- `getSensorTypeName` — display-name table with fall-through to the key. -/
def getSensorTypeName (t : String) : String :=
  if t = "horizontal-displacement" then "围护墙顶部水平位移"
  else if t = "vertical-displacement" then "围护墙顶部竖向位移"
  else if t = "deep-horizontal" then "深层水平位移"
  else if t = "support-force" then "支撑轴力"
  else if t = "anchor-force" then "锚杆轴力"
  else if t = "water-level" then "地下水位"
  else if t = "ground-settlement" then "周边地表竖向位移"
  else t

/-- `getMinimumSensorCount` — `minimums[type] || 1`. -/
def getMinimumSensorCount (t : String) : Nat :=
  if t = "horizontal-displacement" then 8
  else if t = "vertical-displacement" then 8
  else if t = "deep-horizontal" then 4
  else if t = "support-force" then 4
  else if t = "anchor-force" then 2
  else if t = "water-level" then 2
  else if t = "ground-settlement" then 6
  else 1

-- Message constructors (template literals in the source).
def requirementNotFoundMsg (t : String) (level : ℚ) : String :=
  "未找到" ++ t ++ "类型" ++ toString level ++ "级基坑的监测要求"

def missingRequiredMsg (t : String) : String :=
  "缺少必测项目：" ++ getSensorTypeName t

def insufficientCountMsg (t : String) : String :=
  getSensorTypeName t ++ "数量不足，建议增加至" ++ toString (getMinimumSensorCount t) ++ "个以上"

def suggestAddMsg (t : String) : String :=
  "建议增加：" ++ getSensorTypeName t

def wallCountMsg : String :=
  "围护墙位移监测点数量偏少，建议每边至少布置3个监测点"

def missingMiddleMsg (n : Nat) : String :=
  "有" ++ toString n ++ "边缺少中部监测点"

def missingCornerMsg (n : Nat) : String :=
  "有" ++ toString n ++ "个阳角缺少监测点"

def deepHorizontalMsg (n : Nat) : String :=
  "深层水平位移监测点建议增加至" ++ toString n ++ "个"

def settlementRangeMsg (r : ℚ) : String :=
  "地表沉降监测范围不足，建议扩大至基坑边线外" ++ toString r ++ "m"

def settlementCountMsg : String :=
  "周边地表沉降监测点数量偏少，建议在重要保护对象周边加密布置"

def peripheralMsg : String :=
  "建议在基坑周边环境中布置更多监测点"

def necessityMandatoryMsg : String :=
  "该基坑属于一、二级基坑，必须实施监测"

def necessityShouldMsg : String :=
  "基坑开挖深度≥5m，应实施监测"

def necessityDiscretionaryMsg : String :=
  "基坑开挖深度<5m且为三级基坑，可根据现场情况决定是否监测"

-- Compliance sub-records.

structure Distribution where
  north : Nat
  south : Nat
  east : Nat
  west : Nat
  corners : Nat
  middle : Nat
deriving DecidableEq

structure WallDisplacementLayout where
  total : Nat
  distribution : Distribution
deriving DecidableEq

structure DeepHorizontalLayout where
  total : Nat
  distribution : Distribution
deriving DecidableEq

/-- `layoutResults.groundSettlement`.  The JS field `range` holds
`max(0, max over sensors of (sqrt(x²+z²) − boundary))`, an irrational
number; we store the data determining it — the maximum squared radial
distance (with 0 floor, as in `Math.max(..., 0)`) and the boundary
`max(length,width)/2` — and embed its single use (comparison with the
required range) exactly, below. -/
structure GroundSettlementLayout where
  total : Nat
  maxDistSq : ℚ
  boundary : ℚ
deriving DecidableEq

structure LayoutResults where
  wallDisplacement : WallDisplacementLayout
  deepHorizontal : DeepHorizontalLayout
  groundSettlement : GroundSettlementLayout
deriving DecidableEq

structure QuantityCompliance where
  total : Nat
  density : ℚ
  recommended : ℚ
  adequate : Bool
deriving DecidableEq

/-- `coverage` in `checkMonitoringRange`.  JS field `maxDistance` is
`Math.max(...sensors.map(s => sqrt(x²+z²)), 0)`; since sqrt is monotone and
sqrt 0 = 0 this equals `sqrt (Math.max(...sensors.map(s => x²+z²), 0))`,
and we store the squared value `maxDistanceSq`. -/
structure RangeCoverage where
  total : Nat
  outside : Nat
  maxDistanceSq : ℚ
  recommendedMaxDistance : ℚ
deriving DecidableEq

/-- `results.compliance`: starts as the empty object `{}`; fields added
one by one as checks run, absent (`none`) on the early-return path. -/
structure Compliance where
  required : Option (List (String × Nat)) := none
  recommended : Option (List (String × Nat)) := none
  layout : Option LayoutResults := none
  quantity : Option QuantityCompliance := none
  range : Option RangeCoverage := none
deriving DecidableEq

structure ValidationResults where
  isValid : Bool
  errors : List String
  warnings : List String
  suggestions : List String
  compliance : Compliance
deriving DecidableEq

/-- The literal `results` object initialised at the top of `validateLayout`. -/
def initialResults : ValidationResults :=
  { isValid := true, errors := [], warnings := [], suggestions := [], compliance := {} }

inductive JsError where
  | typeError
deriving DecidableEq

/-- `sensors.map(s => s.type).filter(t => t === type).length`. -/
def countType (sensors : List Sensor) (t : String) : Nat :=
  ((sensors.map (fun s => s.type)).filter (fun u => u == t)).length

/-- `checkRequiredSensors` — the `forEach` loop, processed head first;
`compliance[type] = count` becomes an association-list cons (the required
lists of the static table are duplicate-free, so JS object insertion and
the association list agree). -/
def checkRequiredSensors (requiredTypes : List String) (sensors : List Sensor)
    (results : ValidationResults) : List (String × Nat) × ValidationResults :=
  match requiredTypes with
  | [] => ([], results)
  | t :: rest =>
    let count := countType sensors t
    let results1 :=
      if count = 0 then
        { results with errors := results.errors ++ [missingRequiredMsg t] }
      else if count < getMinimumSensorCount t then
        { results with warnings := results.warnings ++ [insufficientCountMsg t] }
      else results
    let tail := checkRequiredSensors rest sensors results1
    ((t, count) :: tail.1, tail.2)

/-- `checkRecommendedSensors`. -/
def checkRecommendedSensors (recommendedTypes : List String) (sensors : List Sensor)
    (results : ValidationResults) : List (String × Nat) × ValidationResults :=
  match recommendedTypes with
  | [] => ([], results)
  | t :: rest =>
    let count := countType sensors t
    let results1 :=
      if count = 0 then
        { results with suggestions := results.suggestions ++ [suggestAddMsg t] }
      else results
    let tail := checkRecommendedSensors rest sensors results1
    ((t, count) :: tail.1, tail.2)

inductive Side where
  | east
  | west
  | north
  | south
deriving DecidableEq

/-- The side-classification `if/else if` chain shared (verbatim in the
source) by `analyzeSensorDistribution` and `identifyCriticalPositions`:
east `|x − length/2| < 2`, else west `|x + length/2| < 2`, else north
`|z − width/2| < 2`, else south `|z + width/2| < 2`, else no side. -/
def classifySide (x z length width : ℚ) : Option Side :=
  if |x - length / 2| < 2 then some .east
  else if |x + length / 2| < 2 then some .west
  else if |z - width / 2| < 2 then some .north
  else if |z + width / 2| < 2 then some .south
  else none

/-- Squared horizontal distance from pit center: the radicand of
`Math.sqrt(sensor.position.x ** 2 + sensor.position.z ** 2)`. -/
def distSq (s : Sensor) : ℚ :=
  s.position.x ^ 2 + s.position.z ^ 2

/-- `analyzeSensorDistribution` — tallies the `forEach` loop. -/
def analyzeSensorDistribution (sensors : List Sensor) (length width : ℚ) : Distribution :=
  match sensors with
  | [] => { north := 0, south := 0, east := 0, west := 0, corners := 0, middle := 0 }
  | s :: rest =>
    let d := analyzeSensorDistribution rest length width
    let x := s.position.x
    let z := s.position.z
    let d :=
      match classifySide x z length width with
      | some .east => { d with east := d.east + 1 }
      | some .west => { d with west := d.west + 1 }
      | some .north => { d with north := d.north + 1 }
      | some .south => { d with south := d.south + 1 }
      | none => d
    let isCorner := |(|x| - length / 2)| < 3 && |(|z| - width / 2)| < 3
    let isMiddle := |x| < length / 4 || |z| < width / 4
    let d := if isCorner then { d with corners := d.corners + 1 } else d
    if isMiddle then { d with middle := d.middle + 1 } else d

structure SideCounts where
  east : Nat
  west : Nat
  north : Nat
  south : Nat
deriving DecidableEq

/-- The side-assignment loop of `identifyCriticalPositions`; only the
per-side list lengths are consumed, so we tally counts. -/
def tallySides (sensors : List Sensor) (length width : ℚ) : SideCounts :=
  match sensors with
  | [] => { east := 0, west := 0, north := 0, south := 0 }
  | s :: rest =>
    let c := tallySides rest length width
    match classifySide s.position.x s.position.z length width with
    | some .east => { c with east := c.east + 1 }
    | some .west => { c with west := c.west + 1 }
    | some .north => { c with north := c.north + 1 }
    | some .south => { c with south := c.south + 1 }
    | none => c

/-- The four corner coordinates `[length/2, width/2], [−length/2, width/2],
[−length/2, −width/2], [length/2, −width/2]`. -/
def cornersList (length width : ℚ) : List (ℚ × ℚ) :=
  [(length / 2, width / 2), (-length / 2, width / 2),
   (-length / 2, -width / 2), (length / 2, -width / 2)]

/-- `sqrt((x−cx)² + (z−cz)²) < 5` embedded as the squared comparison
(both sides nonnegative, sqrt strictly monotone). -/
def nearCorner (s : Sensor) (corner : ℚ × ℚ) : Bool :=
  decide ((s.position.x - corner.1) ^ 2 + (s.position.z - corner.2) ^ 2 < 25)

/-- `identifyCriticalPositions` — returns (missingMiddle, missingCorner). -/
def identifyCriticalPositions (sensors : List Sensor) (length width : ℚ) : Nat × Nat :=
  let c := tallySides sensors length width
  let missingMiddle :=
    (([c.east, c.west, c.north, c.south] : List Nat).filter (fun n => decide (n < 3))).length
  let missingCorner :=
    ((cornersList length width).filter
      (fun corner => !sensors.any (fun s => nearCorner s corner))).length
  (missingMiddle, missingCorner)

/-- `checkWallDisplacementLayout`. -/
def checkWallDisplacementLayout (sensors : List Sensor) (length width : ℚ)
    (results : ValidationResults) : WallDisplacementLayout × ValidationResults :=
  let wallSensors := sensors.filter
    (fun s => s.type == "horizontal-displacement" || s.type == "vertical-displacement")
  let layout : WallDisplacementLayout :=
    { total := wallSensors.length,
      distribution := analyzeSensorDistribution wallSensors length width }
  let results1 :=
    if wallSensors.length < 12 then
      { results with warnings := results.warnings ++ [wallCountMsg] }
    else results
  let critical := identifyCriticalPositions wallSensors length width
  let results2 :=
    if 0 < critical.1 then
      { results1 with warnings := results1.warnings ++ [missingMiddleMsg critical.1] }
    else results1
  let results3 :=
    if 0 < critical.2 then
      { results2 with warnings := results2.warnings ++ [missingCornerMsg critical.2] }
    else results2
  (layout, results3)

/-- `checkDeepHorizontalLayout`. -/
def checkDeepHorizontalLayout (sensors : List Sensor) (length width : ℚ)
    (results : ValidationResults) : DeepHorizontalLayout × ValidationResults :=
  let deepSensors := sensors.filter (fun s => s.type == "deep-horizontal")
  let layout : DeepHorizontalLayout :=
    { total := deepSensors.length,
      distribution := analyzeSensorDistribution deepSensors length width }
  let recommendedCount : Nat := if 50 < max length width then 6 else 4
  let results1 :=
    if deepSensors.length < recommendedCount then
      { results with warnings := results.warnings ++ [deepHorizontalMsg recommendedCount] }
    else results
  (layout, results1)

/-- `sqrt dsq < c`, for `dsq ≥ 0`: equivalent to `0 < c ∧ dsq < c²`. -/
def sqrtLtBound (dsq c : ℚ) : Bool :=
  decide (0 < c) && decide (dsq < c ^ 2)

/-- `sqrt dsq > c`, for `dsq ≥ 0`: equivalent to `c < 0 ∨ c² < dsq`. -/
def sqrtGtBound (dsq c : ℚ) : Bool :=
  decide (c < 0) || decide (c ^ 2 < dsq)

/-- The comparison `calculateMonitoringRange(sensors, l, w) < requiredRange`.
The JS value is `Math.max(...sensors.map(s => sqrt(distSq s) − boundary), 0)`.
For an empty list this is 0, so the comparison is `0 < required`.  Otherwise
it is `max(0, sqrt(max distSq) − boundary) < required`, i.e.
`0 < required ∧ sqrt(max distSq) < boundary + required`, embedded through
`sqrtLtBound` (subtraction of the constant `boundary` commutes with max, and
sqrt is monotone, so the max of the sqrt terms is the sqrt of the max
radicand). -/
def monitoringRangeLt (distSqs : List ℚ) (boundary required : ℚ) : Bool :=
  match distSqs with
  | [] => decide (0 < required)
  | _ => decide (0 < required) && sqrtLtBound (distSqs.foldl max 0) (boundary + required)

/-- `checkGroundSettlementLayout`. -/
def checkGroundSettlementLayout (sensors : List Sensor) (length width depth : ℚ)
    (results : ValidationResults) : GroundSettlementLayout × ValidationResults :=
  let settlementSensors := sensors.filter (fun s => s.type == "ground-settlement")
  let boundary := max length width / 2
  let layout : GroundSettlementLayout :=
    { total := settlementSensors.length,
      maxDistSq := (settlementSensors.map distSq).foldl max 0,
      boundary := boundary }
  let requiredRange := depth * 2
  let results1 :=
    if monitoringRangeLt (settlementSensors.map distSq) boundary requiredRange then
      { results with warnings := results.warnings ++ [settlementRangeMsg requiredRange] }
    else results
  let results2 :=
    if settlementSensors.length < 8 then
      { results1 with warnings := results1.warnings ++ [settlementCountMsg] }
    else results1
  (layout, results2)

/-- `checkSensorLayout`. -/
def checkSensorLayout (config : Config) (sensors : List Sensor)
    (results : ValidationResults) : LayoutResults × ValidationResults :=
  let length := config.dimensions.length
  let width := config.dimensions.width
  let depth := config.dimensions.depth
  let wall := checkWallDisplacementLayout sensors length width results
  let deep := checkDeepHorizontalLayout sensors length width wall.2
  let ground := checkGroundSettlementLayout sensors length width depth deep.2
  ({ wallDisplacement := wall.1, deepHorizontal := deep.1, groundSettlement := ground.1 },
   ground.2)

/-- `calculateRecommendedDensity` — `baseDensity[safetyLevel] || 0.5`
(the table values 0.8/0.6/0.4 are all truthy). -/
def calculateRecommendedDensity (config : Config) : ℚ :=
  if config.safetyLevel = 1 then 0.8
  else if config.safetyLevel = 2 then 0.6
  else if config.safetyLevel = 3 then 0.4
  else 0.5

/-- `checkSensorQuantity` — touches none of the message lists. -/
def checkSensorQuantity (config : Config) (sensors : List Sensor)
    (results : ValidationResults) : QuantityCompliance × ValidationResults :=
  let perimeter := 2 * (config.dimensions.length + config.dimensions.width)
  let recommendedDensity := calculateRecommendedDensity config
  let actualDensity := (sensors.length : ℚ) / perimeter
  ({ total := sensors.length,
     density := actualDensity,
     recommended := recommendedDensity,
     adequate := decide (recommendedDensity * 0.8 ≤ actualDensity) }, results)

/-- `checkMonitoringRange`.  The `outside` filter embeds
`sqrt(distSq s) > max(length,width)/2` via `sqrtGtBound`. -/
def checkMonitoringRange (config : Config) (sensors : List Sensor)
    (results : ValidationResults) : RangeCoverage × ValidationResults :=
  let length := config.dimensions.length
  let width := config.dimensions.width
  let maxDistance := max length width * 1.5
  let outsideSensors := sensors.filter (fun s => sqrtGtBound (distSq s) (max length width / 2))
  let coverage : RangeCoverage :=
    { total := sensors.length,
      outside := outsideSensors.length,
      maxDistanceSq := (sensors.map distSq).foldl max 0,
      recommendedMaxDistance := maxDistance }
  let results1 :=
    if (coverage.outside : ℚ) < (sensors.length : ℚ) * 0.3 then
      { results with warnings := results.warnings ++ [peripheralMsg] }
    else results
  (coverage, results1)

/-- `checkMonitoringNecessity`. -/
def checkMonitoringNecessity (config : Config) (results : ValidationResults) :
    ValidationResults :=
  if config.safetyLevel ≤ 2 then
    { results with suggestions := results.suggestions ++ [necessityMandatoryMsg] }
  else if 5 ≤ config.dimensions.depth then
    { results with suggestions := results.suggestions ++ [necessityShouldMsg] }
  else
    { results with suggestions := results.suggestions ++ [necessityDiscretionaryMsg] }

/-- `validateLayout` — the entry point.  `.error .typeError` models the
TypeError thrown by `this.monitoringRequirements[config.type][config.safetyLevel]`
when the composition is not a table key; an unknown safety level under a
known composition reaches the `if (!requirements)` guard instead. -/
def validateLayout (config : Config) (sensors : List Sensor) :
    Except JsError ValidationResults :=
  match monitoringRequirements config.type with
  | none => .error .typeError
  | some levelTable =>
    match levelTable config.safetyLevel with
    | none =>
      .ok { initialResults with
              errors := initialResults.errors ++
                [requirementNotFoundMsg config.type config.safetyLevel],
              isValid := false }
    | some requirements =>
      let step1 := checkRequiredSensors requirements.required sensors initialResults
      let step2 := checkRecommendedSensors requirements.recommended sensors step1.2
      let step3 := checkSensorLayout config sensors step2.2
      let step4 := checkSensorQuantity config sensors step3.2
      let step5 := checkMonitoringRange config sensors step4.2
      let results := checkMonitoringNecessity config step5.2
      let results :=
        { results with compliance :=
            { required := some step1.1,
              recommended := some step2.1,
              layout := some step3.1,
              quantity := some step4.1,
              range := some step5.1 } }
      .ok { results with isValid := decide (results.errors.length = 0) }

/-- Derived requirement resolution (both lookup steps succeed):
`resolve(composition, safetyLevel)` of the spec. -/
def resolveRequirements (config : Config) : Option RequirementSet :=
  (monitoringRequirements config.type).bind (fun table => table config.safetyLevel)

/-- A valid configuration: one of the three compositions, safety level
1, 2 or 3, positive dimensions. -/
def ValidConfig (config : Config) : Prop :=
  (config.type = "soil" ∨ config.type = "rock" ∨ config.type = "soil-rock") ∧
  (config.safetyLevel = 1 ∨ config.safetyLevel = 2 ∨ config.safetyLevel = 3) ∧
  0 < config.dimensions.length ∧ 0 < config.dimensions.width ∧
  0 < config.dimensions.depth

/-- The necessity advisory selected by `checkMonitoringNecessity`. -/
def necessityMsgOf (config : Config) : String :=
  if config.safetyLevel ≤ 2 then necessityMandatoryMsg
  else if 5 ≤ config.dimensions.depth then necessityShouldMsg
  else necessityDiscretionaryMsg

/-- The report built on the resolved (main) branch of `validateLayout`. -/
def mainReport (config : Config) (requirements : RequirementSet)
    (sensors : List Sensor) : ValidationResults :=
  let step1 := checkRequiredSensors requirements.required sensors initialResults
  let step2 := checkRecommendedSensors requirements.recommended sensors step1.2
  let step3 := checkSensorLayout config sensors step2.2
  let step4 := checkSensorQuantity config sensors step3.2
  let step5 := checkMonitoringRange config sensors step4.2
  let results := checkMonitoringNecessity config step5.2
  let results :=
    { results with compliance :=
        { required := some step1.1,
          recommended := some step2.1,
          layout := some step3.1,
          quantity := some step4.1,
          range := some step5.1 } }
  { results with isValid := decide (results.errors.length = 0) }

theorem validateLayout_eq_mainReport (config : Config) (sensors : List Sensor)
    (table : ℚ → Option RequirementSet) (requirements : RequirementSet)
    (h1 : monitoringRequirements config.type = some table)
    (h2 : table config.safetyLevel = some requirements) :
    validateLayout config sensors = .ok (mainReport config requirements sensors) := by
  unfold validateLayout
  split
  · next heq => rw [heq] at h1; cases h1
  · next table2 heq =>
    rw [heq] at h1
    injection h1 with h1'
    subst h1'
    split
    · next heq2 => rw [heq2] at h2; cases h2
    · next req2 heq2 =>
      rw [heq2] at h2
      injection h2 with h2'
      subst h2'
      rfl

theorem validateLayout_eq_early (config : Config) (sensors : List Sensor)
    (table : ℚ → Option RequirementSet)
    (h1 : monitoringRequirements config.type = some table)
    (h2 : table config.safetyLevel = none) :
    validateLayout config sensors =
      .ok { initialResults with
              errors := [requirementNotFoundMsg config.type config.safetyLevel],
              isValid := false } := by
  unfold validateLayout
  split
  · next heq => rw [heq] at h1; cases h1
  · next table2 heq =>
    rw [heq] at h1
    injection h1 with h1'
    subst h1'
    split
    · rfl
    · next req2 heq2 => rw [heq2] at h2; cases h2

theorem resolveRequirements_elim (config : Config) (requirements : RequirementSet)
    (h : resolveRequirements config = some requirements) :
    ∃ table, monitoringRequirements config.type = some table ∧
      table config.safetyLevel = some requirements := by
  unfold resolveRequirements at h
  rcases hm : monitoringRequirements config.type with _ | table
  · rw [hm] at h; cases h
  · rw [hm] at h; exact ⟨table, rfl, h⟩

-- Characterizations of the presence-and-count checkers (the `forEach`
-- loops rewritten as filter/map equations).

theorem checkRequiredSensors_spec (ts : List String) (sensors : List Sensor)
    (results : ValidationResults) :
    (checkRequiredSensors ts sensors results).1 =
      ts.map (fun t => (t, countType sensors t)) ∧
    (checkRequiredSensors ts sensors results).2.errors =
      results.errors ++
        (ts.filter (fun t => countType sensors t == 0)).map missingRequiredMsg ∧
    (checkRequiredSensors ts sensors results).2.warnings =
      results.warnings ++
        (ts.filter (fun t => decide (countType sensors t ≠ 0 ∧
          countType sensors t < getMinimumSensorCount t))).map insufficientCountMsg ∧
    (checkRequiredSensors ts sensors results).2.suggestions = results.suggestions ∧
    (checkRequiredSensors ts sensors results).2.isValid = results.isValid ∧
    (checkRequiredSensors ts sensors results).2.compliance = results.compliance := by
  induction ts generalizing results with
  | nil => simp [checkRequiredSensors]
  | cons t rest ih =>
    by_cases h0 : countType sensors t = 0
    · have := ih { results with errors := results.errors ++ [missingRequiredMsg t] }
      simp only [checkRequiredSensors, h0, if_pos rfl, List.filter_cons, List.map_cons] at *
      simp [h0, this, List.append_assoc]
    · by_cases h1 : countType sensors t < getMinimumSensorCount t
      · have := ih { results with warnings := results.warnings ++ [insufficientCountMsg t] }
        simp only [checkRequiredSensors] at *
        rw [if_neg h0, if_pos h1]
        simp [h0, h1, this, List.append_assoc]
      · have := ih results
        simp only [checkRequiredSensors] at *
        rw [if_neg h0, if_neg h1]
        simp [h0, h1, this]

theorem checkRecommendedSensors_spec (ts : List String) (sensors : List Sensor)
    (results : ValidationResults) :
    (checkRecommendedSensors ts sensors results).1 =
      ts.map (fun t => (t, countType sensors t)) ∧
    (checkRecommendedSensors ts sensors results).2.suggestions =
      results.suggestions ++
        (ts.filter (fun t => countType sensors t == 0)).map suggestAddMsg ∧
    (checkRecommendedSensors ts sensors results).2.errors = results.errors ∧
    (checkRecommendedSensors ts sensors results).2.warnings = results.warnings ∧
    (checkRecommendedSensors ts sensors results).2.isValid = results.isValid ∧
    (checkRecommendedSensors ts sensors results).2.compliance = results.compliance := by
  induction ts generalizing results with
  | nil => simp [checkRecommendedSensors]
  | cons t rest ih =>
    by_cases h0 : countType sensors t = 0
    · have := ih { results with suggestions := results.suggestions ++ [suggestAddMsg t] }
      simp only [checkRecommendedSensors] at *
      rw [if_pos h0]
      simp [h0, this, List.append_assoc]
    · have := ih results
      simp only [checkRecommendedSensors] at *
      rw [if_neg h0]
      simp [h0, this]

-- Record-update characterizations: each layout/range check only appends
-- warnings; quantity touches nothing; necessity appends one suggestion.

/-- Warnings appended by `checkWallDisplacementLayout`. -/
def wallAppendedWarnings (sensors : List Sensor) (length width : ℚ) : List String :=
  let wallSensors := sensors.filter
    (fun s => s.type == "horizontal-displacement" || s.type == "vertical-displacement")
  let critical := identifyCriticalPositions wallSensors length width
  (if wallSensors.length < 12 then [wallCountMsg] else []) ++
  (if 0 < critical.1 then [missingMiddleMsg critical.1] else []) ++
  (if 0 < critical.2 then [missingCornerMsg critical.2] else [])

theorem checkWallDisplacementLayout_snd (sensors : List Sensor) (length width : ℚ)
    (results : ValidationResults) :
    (checkWallDisplacementLayout sensors length width results).2 =
      { results with
          warnings := results.warnings ++ wallAppendedWarnings sensors length width } := by
  simp only [checkWallDisplacementLayout, wallAppendedWarnings]
  split_ifs <;> simp [List.append_assoc]

/-- Warnings appended by `checkDeepHorizontalLayout`. -/
def deepAppendedWarnings (sensors : List Sensor) (length width : ℚ) : List String :=
  let deepSensors := sensors.filter (fun s => s.type == "deep-horizontal")
  let recommendedCount : Nat := if 50 < max length width then 6 else 4
  if deepSensors.length < recommendedCount then [deepHorizontalMsg recommendedCount] else []

theorem checkDeepHorizontalLayout_snd (sensors : List Sensor) (length width : ℚ)
    (results : ValidationResults) :
    (checkDeepHorizontalLayout sensors length width results).2 =
      { results with
          warnings := results.warnings ++ deepAppendedWarnings sensors length width } := by
  simp only [checkDeepHorizontalLayout, deepAppendedWarnings]
  split_ifs <;> simp

/-- Warnings appended by `checkGroundSettlementLayout`. -/
def groundAppendedWarnings (sensors : List Sensor) (length width depth : ℚ) : List String :=
  let settlementSensors := sensors.filter (fun s => s.type == "ground-settlement")
  let boundary := max length width / 2
  let requiredRange := depth * 2
  (if monitoringRangeLt (settlementSensors.map distSq) boundary requiredRange then
    [settlementRangeMsg requiredRange] else []) ++
  (if settlementSensors.length < 8 then [settlementCountMsg] else [])

theorem checkGroundSettlementLayout_snd (sensors : List Sensor) (length width depth : ℚ)
    (results : ValidationResults) :
    (checkGroundSettlementLayout sensors length width depth results).2 =
      { results with
          warnings := results.warnings ++ groundAppendedWarnings sensors length width depth } := by
  simp only [checkGroundSettlementLayout, groundAppendedWarnings]
  split_ifs <;> simp [List.append_assoc]

/-- Warnings appended by `checkSensorLayout` (its three sub-checks in order). -/
def layoutAppendedWarnings (config : Config) (sensors : List Sensor) : List String :=
  wallAppendedWarnings sensors config.dimensions.length config.dimensions.width ++
  deepAppendedWarnings sensors config.dimensions.length config.dimensions.width ++
  groundAppendedWarnings sensors config.dimensions.length config.dimensions.width
    config.dimensions.depth

theorem checkSensorLayout_snd (config : Config) (sensors : List Sensor)
    (results : ValidationResults) :
    (checkSensorLayout config sensors results).2 =
      { results with
          warnings := results.warnings ++ layoutAppendedWarnings config sensors } := by
  simp only [checkSensorLayout, layoutAppendedWarnings, checkWallDisplacementLayout_snd,
    checkDeepHorizontalLayout_snd, checkGroundSettlementLayout_snd]
  simp [List.append_assoc]

theorem checkSensorQuantity_snd (config : Config) (sensors : List Sensor)
    (results : ValidationResults) :
    (checkSensorQuantity config sensors results).2 = results := rfl

/-- Warnings appended by `checkMonitoringRange`. -/
def rangeAppendedWarnings (config : Config) (sensors : List Sensor) : List String :=
  let outsideSensors := sensors.filter
    (fun s => sqrtGtBound (distSq s)
      (max config.dimensions.length config.dimensions.width / 2))
  if (outsideSensors.length : ℚ) < (sensors.length : ℚ) * 0.3 then [peripheralMsg] else []

theorem checkMonitoringRange_snd (config : Config) (sensors : List Sensor)
    (results : ValidationResults) :
    (checkMonitoringRange config sensors results).2 =
      { results with
          warnings := results.warnings ++ rangeAppendedWarnings config sensors } := by
  simp only [checkMonitoringRange, rangeAppendedWarnings]
  split_ifs <;> simp

theorem checkMonitoringNecessity_eq (config : Config) (results : ValidationResults) :
    checkMonitoringNecessity config results =
      { results with suggestions := results.suggestions ++ [necessityMsgOf config] } := by
  simp only [checkMonitoringNecessity, necessityMsgOf]
  split_ifs <;> rfl

-- The fields of the main-branch report in closed form.

theorem mainReport_errors (config : Config) (requirements : RequirementSet)
    (sensors : List Sensor) :
    (mainReport config requirements sensors).errors =
      (requirements.required.filter
        (fun t => countType sensors t == 0)).map missingRequiredMsg := by
  have e1 := (checkRequiredSensors_spec requirements.required sensors initialResults).2.1
  have e2 := (checkRecommendedSensors_spec requirements.recommended sensors
    (checkRequiredSensors requirements.required sensors initialResults).2).2.2.1
  simp only [mainReport, checkSensorLayout_snd, checkSensorQuantity_snd,
    checkMonitoringRange_snd, checkMonitoringNecessity_eq]
  rw [e2, e1]
  simp [initialResults]

theorem mainReport_warnings (config : Config) (requirements : RequirementSet)
    (sensors : List Sensor) :
    (mainReport config requirements sensors).warnings =
      (requirements.required.filter
        (fun t => decide (countType sensors t ≠ 0 ∧
          countType sensors t < getMinimumSensorCount t))).map insufficientCountMsg ++
      layoutAppendedWarnings config sensors ++
      rangeAppendedWarnings config sensors := by
  have w1 := (checkRequiredSensors_spec requirements.required sensors initialResults).2.2.1
  have w2 := (checkRecommendedSensors_spec requirements.recommended sensors
    (checkRequiredSensors requirements.required sensors initialResults).2).2.2.2.1
  simp only [mainReport, checkSensorLayout_snd, checkSensorQuantity_snd,
    checkMonitoringRange_snd, checkMonitoringNecessity_eq]
  rw [w2, w1]
  simp [initialResults, List.append_assoc]

theorem mainReport_suggestions (config : Config) (requirements : RequirementSet)
    (sensors : List Sensor) :
    (mainReport config requirements sensors).suggestions =
      (requirements.recommended.filter
        (fun t => countType sensors t == 0)).map suggestAddMsg ++
      [necessityMsgOf config] := by
  have s1 := (checkRequiredSensors_spec requirements.required sensors initialResults).2.2.2.1
  have s2 := (checkRecommendedSensors_spec requirements.recommended sensors
    (checkRequiredSensors requirements.required sensors initialResults).2).2.1
  simp only [mainReport, checkSensorLayout_snd, checkSensorQuantity_snd,
    checkMonitoringRange_snd, checkMonitoringNecessity_eq]
  rw [s2, s1]
  simp [initialResults]

theorem mainReport_isValid (config : Config) (requirements : RequirementSet)
    (sensors : List Sensor) :
    (mainReport config requirements sensors).isValid =
      decide ((mainReport config requirements sensors).errors.length = 0) := by
  simp only [mainReport, mainReport_errors, checkSensorLayout_snd, checkSensorQuantity_snd,
    checkMonitoringRange_snd, checkMonitoringNecessity_eq]

-- List helpers: `foldl max` bounds (for the reported maximum distances) and
-- side-tally counts.

theorem init_le_foldl_max (l : List ℚ) (a : ℚ) : a ≤ l.foldl max a := by
  induction l generalizing a with
  | nil => exact le_refl a
  | cons b rest ih => exact le_trans (le_max_left a b) (ih (max a b))

theorem le_foldl_max_of_mem (l : List ℚ) (a x : ℚ) (hx : x ∈ l) : x ≤ l.foldl max a := by
  induction l generalizing a with
  | nil => cases hx
  | cons b rest ih =>
    rcases List.mem_cons.mp hx with h | h
    · subst h; exact le_trans (le_max_right a x) (init_le_foldl_max rest (max a x))
    · exact ih (max a b) h

theorem foldl_max_eq_init_or_mem (l : List ℚ) (a : ℚ) :
    l.foldl max a = a ∨ l.foldl max a ∈ l := by
  induction l generalizing a with
  | nil => exact Or.inl rfl
  | cons b rest ih =>
    rcases ih (max a b) with h | h
    · rcases max_choice a b with hm | hm
      · exact Or.inl (by rw [List.foldl_cons, h, hm])
      · exact Or.inr (by rw [List.foldl_cons, h, hm]; exact List.mem_cons_self b rest)
    · exact Or.inr (List.mem_cons_of_mem b h)

theorem tallySides_east (sensors : List Sensor) (length width : ℚ) :
    (tallySides sensors length width).east =
      sensors.countP (fun s =>
        classifySide s.position.x s.position.z length width == some Side.east) := by
  induction sensors with
  | nil => rfl
  | cons s rest ih =>
    rcases hc : classifySide s.position.x s.position.z length width with _ | side
    · rw [List.countP_cons]
      simp only [tallySides, hc]
      simp [ih]
    · rw [List.countP_cons]
      simp only [tallySides, hc]
      cases side <;> simp [ih]

theorem tallySides_west (sensors : List Sensor) (length width : ℚ) :
    (tallySides sensors length width).west =
      sensors.countP (fun s =>
        classifySide s.position.x s.position.z length width == some Side.west) := by
  induction sensors with
  | nil => rfl
  | cons s rest ih =>
    rcases hc : classifySide s.position.x s.position.z length width with _ | side
    · rw [List.countP_cons]
      simp only [tallySides, hc]
      simp [ih]
    · rw [List.countP_cons]
      simp only [tallySides, hc]
      cases side <;> simp [ih]

theorem tallySides_north (sensors : List Sensor) (length width : ℚ) :
    (tallySides sensors length width).north =
      sensors.countP (fun s =>
        classifySide s.position.x s.position.z length width == some Side.north) := by
  induction sensors with
  | nil => rfl
  | cons s rest ih =>
    rcases hc : classifySide s.position.x s.position.z length width with _ | side
    · rw [List.countP_cons]
      simp only [tallySides, hc]
      simp [ih]
    · rw [List.countP_cons]
      simp only [tallySides, hc]
      cases side <;> simp [ih]

theorem tallySides_south (sensors : List Sensor) (length width : ℚ) :
    (tallySides sensors length width).south =
      sensors.countP (fun s =>
        classifySide s.position.x s.position.z length width == some Side.south) := by
  induction sensors with
  | nil => rfl
  | cons s rest ih =>
    rcases hc : classifySide s.position.x s.position.z length width with _ | side
    · rw [List.countP_cons]
      simp only [tallySides, hc]
      simp [ih]
    · rw [List.countP_cons]
      simp only [tallySides, hc]
      cases side <;> simp [ih]

-- C2.

/-- C2: for every config and sensor list, any report returned by
`validateLayout` satisfies `isValid = true` exactly when the error list is
empty — warnings and suggestions never affect it — including on the
early-return path for an unresolvable requirement combination. -/
theorem validateLayout_isValid_iff_errors_empty (config : Config)
    (sensors : List Sensor) (r : ValidationResults)
    (h : validateLayout config sensors = Except.ok r) :
    r.isValid = true ↔ r.errors = [] := by
  rcases hm : monitoringRequirements config.type with _ | table
  · unfold validateLayout at h
    rw [hm] at h
    cases h
  · rcases hl : table config.safetyLevel with _ | requirements
    · rw [validateLayout_eq_early config sensors table hm hl] at h
      injection h with h'
      subst h'
      simp [initialResults]
    · rw [validateLayout_eq_mainReport config sensors table requirements hm hl] at h
      injection h with h'
      subst h'
      rw [mainReport_isValid]
      simp [List.length_eq_zero]

-- C3.

/-- C3: when the requirement combination resolves and the sensor list has
zero sensors of every required category, the report's error list is exactly
one missing-category error per required category, in order; in particular
its length is the required-category count. -/
theorem validateLayout_errors_when_required_absent (config : Config)
    (sensors : List Sensor) (requirements : RequirementSet) (r : ValidationResults)
    (hreq : resolveRequirements config = some requirements)
    (habs : ∀ t ∈ requirements.required, countType sensors t = 0)
    (hr : validateLayout config sensors = Except.ok r) :
    r.errors = requirements.required.map missingRequiredMsg ∧
    r.errors.length = requirements.required.length := by
  obtain ⟨table, h1, h2⟩ := resolveRequirements_elim config requirements hreq
  rw [validateLayout_eq_mainReport config sensors table requirements h1 h2] at hr
  injection hr with hr'
  subst hr'
  have hfilter : requirements.required.filter (fun t => countType sensors t == 0) =
      requirements.required :=
    List.filter_eq_self.mpr (fun t ht => by simp [habs t ht])
  constructor
  · rw [mainReport_errors, hfilter]
  · rw [mainReport_errors, hfilter, List.length_map]

-- C4.

/-- C4: the presence-and-count checker emits exactly one error per required
category with zero count, exactly one warning (and no error) per required
category present but below its static minimum, and one suggestion per
recommended category with zero count, each appended in requirement-set
order; the static minimums are 8/8/4/4/2/2/6 with default 1. -/
theorem checkRequired_and_recommended_characterization
    (required recommended : List String) (sensors : List Sensor)
    (results : ValidationResults) :
    (checkRequiredSensors required sensors results).2.errors =
      results.errors ++
        (required.filter (fun t => countType sensors t == 0)).map missingRequiredMsg ∧
    (checkRequiredSensors required sensors results).2.warnings =
      results.warnings ++
        (required.filter (fun t => decide (countType sensors t ≠ 0 ∧
          countType sensors t < getMinimumSensorCount t))).map insufficientCountMsg ∧
    (checkRequiredSensors required sensors results).2.suggestions = results.suggestions ∧
    (checkRecommendedSensors recommended sensors results).2.suggestions =
      results.suggestions ++
        (recommended.filter (fun t => countType sensors t == 0)).map suggestAddMsg ∧
    (checkRecommendedSensors recommended sensors results).2.errors = results.errors ∧
    getMinimumSensorCount "horizontal-displacement" = 8 ∧
    getMinimumSensorCount "vertical-displacement" = 8 ∧
    getMinimumSensorCount "deep-horizontal" = 4 ∧
    getMinimumSensorCount "support-force" = 4 ∧
    getMinimumSensorCount "anchor-force" = 2 ∧
    getMinimumSensorCount "water-level" = 2 ∧
    getMinimumSensorCount "ground-settlement" = 6 ∧
    (∀ t, t ∉ (["horizontal-displacement", "vertical-displacement", "deep-horizontal",
        "support-force", "anchor-force", "water-level", "ground-settlement"] : List String) →
      getMinimumSensorCount t = 1) := by
  refine ⟨(checkRequiredSensors_spec required sensors results).2.1,
          (checkRequiredSensors_spec required sensors results).2.2.1,
          (checkRequiredSensors_spec required sensors results).2.2.2.1,
          (checkRecommendedSensors_spec recommended sensors results).2.1,
          (checkRecommendedSensors_spec recommended sensors results).2.2.1,
          rfl, rfl, rfl, rfl, rfl, rfl, rfl, ?_⟩
  intro t ht
  simp only [List.mem_cons, List.not_mem_nil, or_false] at ht
  push_neg at ht
  obtain ⟨n1, n2, n3, n4, n5, n6, n7⟩ := ht
  simp [getMinimumSensorCount, n1, n2, n3, n4, n5, n6, n7]

-- C5: a run that resolves its requirement set always emits exactly one of
-- the three necessity advisories.  First, none of the recommended-category
-- suggestions can collide with a necessity message (they start with
-- different characters).

theorem suggestAddMsg_ne_mandatory (t : String) :
    suggestAddMsg t ≠ necessityMandatoryMsg := by
  intro h
  have hd := congrArg String.data h
  rw [suggestAddMsg, String.data_append] at hd
  have hd2 : '建' :: ("议增加：".data ++ (getSensorTypeName t).data) =
      '该' :: "基坑属于一、二级基坑，必须实施监测".data := hd
  injection hd2 with hhead _
  exact absurd hhead (by decide)

theorem suggestAddMsg_ne_should (t : String) :
    suggestAddMsg t ≠ necessityShouldMsg := by
  intro h
  have hd := congrArg String.data h
  rw [suggestAddMsg, String.data_append] at hd
  have hd2 : '建' :: ("议增加：".data ++ (getSensorTypeName t).data) =
      '基' :: "坑开挖深度≥5m，应实施监测".data := hd
  injection hd2 with hhead _
  exact absurd hhead (by decide)

theorem suggestAddMsg_ne_discretionary (t : String) :
    suggestAddMsg t ≠ necessityDiscretionaryMsg := by
  intro h
  have hd := congrArg String.data h
  rw [suggestAddMsg, String.data_append] at hd
  have hd2 : '建' :: ("议增加：".data ++ (getSensorTypeName t).data) =
      '基' :: "坑开挖深度<5m且为三级基坑，可根据现场情况决定是否监测".data := hd
  injection hd2 with hhead _
  exact absurd hhead (by decide)

theorem count_filter_map_eq_zero (l : List String) (m : String)
    (f : String → String) (hf : ∀ t, f t ≠ m) (p : String → Bool) :
    ((l.filter p).map f).count m = 0 := by
  rw [List.count_eq_zero]
  intro hmem
  rw [List.mem_map] at hmem
  obtain ⟨t, -, ht⟩ := hmem
  exact hf t ht

/-- C5 (amended): on every run whose (composition, safetyLevel) resolves,
exactly one of the three monitoring-necessity suggestions appears in the
suggestion list, chosen by: safetyLevel ≤ 2 → mandatory; otherwise
depth ≥ 5 → should-monitor; otherwise discretionary.  (The claim's
"every run" fails: an unresolvable safety level returns before the
necessity advisor runs — see the counterexample.) -/
theorem necessity_suggestion_exactly_one_of_three (config : Config)
    (sensors : List Sensor) (requirements : RequirementSet) (r : ValidationResults)
    (hreq : resolveRequirements config = some requirements)
    (hr : validateLayout config sensors = Except.ok r) :
    r.suggestions.count necessityMandatoryMsg +
      r.suggestions.count necessityShouldMsg +
      r.suggestions.count necessityDiscretionaryMsg = 1 ∧
    (config.safetyLevel ≤ 2 → r.suggestions.count necessityMandatoryMsg = 1) ∧
    (¬config.safetyLevel ≤ 2 → 5 ≤ config.dimensions.depth →
      r.suggestions.count necessityShouldMsg = 1) ∧
    (¬config.safetyLevel ≤ 2 → ¬5 ≤ config.dimensions.depth →
      r.suggestions.count necessityDiscretionaryMsg = 1) := by
  obtain ⟨table, h1, h2⟩ := resolveRequirements_elim config requirements hreq
  rw [validateLayout_eq_mainReport config sensors table requirements h1 h2] at hr
  injection hr with hr'
  subst hr'
  rw [mainReport_suggestions]
  have z1 := count_filter_map_eq_zero requirements.recommended necessityMandatoryMsg
    suggestAddMsg suggestAddMsg_ne_mandatory (fun t => countType sensors t == 0)
  have z2 := count_filter_map_eq_zero requirements.recommended necessityShouldMsg
    suggestAddMsg suggestAddMsg_ne_should (fun t => countType sensors t == 0)
  have z3 := count_filter_map_eq_zero requirements.recommended necessityDiscretionaryMsg
    suggestAddMsg suggestAddMsg_ne_discretionary (fun t => countType sensors t == 0)
  simp only [List.count_append, z1, z2, z3, Nat.zero_add]
  unfold necessityMsgOf
  split_ifs with hs hd
  · exact ⟨by decide, fun _ => by decide, fun hns _ => absurd hs hns,
      fun hns _ => absurd hs hns⟩
  · exact ⟨by decide, fun hs2 => absurd hs2 hs, fun _ _ => by decide,
      fun _ hnd => absurd hd hnd⟩
  · exact ⟨by decide, fun hs2 => absurd hs2 hs, fun _ hd2 => absurd hd2 hd,
      fun _ _ => by decide⟩

-- C6.

/-- C6: the quantity checker computes perimeter `2·(length+width)`, actual
density `count/perimeter`, the safety-level-indexed recommended density
(1 → 0.8, 2 → 0.6, 3 → 0.4, anything else → 0.5), and
`adequate = (actual ≥ recommended·0.8)`; it appends nothing to the error,
warning or suggestion lists. -/
theorem checkSensorQuantity_characterization (config : Config) (sensors : List Sensor)
    (results : ValidationResults) (hv : ValidConfig config) :
    (checkSensorQuantity config sensors results).1.total = sensors.length ∧
    (checkSensorQuantity config sensors results).1.density =
      (sensors.length : ℚ) /
        (2 * (config.dimensions.length + config.dimensions.width)) ∧
    (checkSensorQuantity config sensors results).1.recommended =
      calculateRecommendedDensity config ∧
    (calculateRecommendedDensity config =
      if config.safetyLevel = 1 then 0.8
      else if config.safetyLevel = 2 then 0.6
      else if config.safetyLevel = 3 then 0.4
      else 0.5) ∧
    ((checkSensorQuantity config sensors results).1.adequate = true ↔
      calculateRecommendedDensity config * 0.8 ≤
        (checkSensorQuantity config sensors results).1.density) ∧
    (checkSensorQuantity config sensors results).2 = results := by
  refine ⟨rfl, rfl, rfl, rfl, ?_, rfl⟩
  simp [checkSensorQuantity]

-- C7.

/-- C7 (amended): holding sensor count and safety level fixed, a strictly
larger perimeter gives a density that is never larger — and strictly
smaller whenever the sensor count is positive (for zero sensors both
densities are 0, refuting the unconditional strict claim) — and the
`adequate` flag can only flip from true to false, never false to true. -/
theorem density_antitone_perimeter (c1 c2 : Config) (l1 l2 : List Sensor)
    (results1 results2 : ValidationResults)
    (hv1 : ValidConfig c1) (hv2 : ValidConfig c2)
    (hn : l1.length = l2.length)
    (hlev : c1.safetyLevel = c2.safetyLevel)
    (hper : 2 * (c1.dimensions.length + c1.dimensions.width) <
            2 * (c2.dimensions.length + c2.dimensions.width)) :
    (checkSensorQuantity c2 l2 results2).1.density ≤
      (checkSensorQuantity c1 l1 results1).1.density ∧
    (0 < l1.length →
      (checkSensorQuantity c2 l2 results2).1.density <
        (checkSensorQuantity c1 l1 results1).1.density) ∧
    ((checkSensorQuantity c2 l2 results2).1.adequate = true →
      (checkSensorQuantity c1 l1 results1).1.adequate = true) := by
  obtain ⟨-, -, hl1, hw1, -⟩ := hv1
  have hp1 : 0 < 2 * (c1.dimensions.length + c1.dimensions.width) := by linarith
  have hd2 : (checkSensorQuantity c2 l2 results2).1.density =
      (l1.length : ℚ) / (2 * (c2.dimensions.length + c2.dimensions.width)) := by
    simp [checkSensorQuantity, hn]
  have hd1 : (checkSensorQuantity c1 l1 results1).1.density =
      (l1.length : ℚ) / (2 * (c1.dimensions.length + c1.dimensions.width)) := rfl
  have hle : (l1.length : ℚ) / (2 * (c2.dimensions.length + c2.dimensions.width)) ≤
      (l1.length : ℚ) / (2 * (c1.dimensions.length + c1.dimensions.width)) :=
    div_le_div_of_nonneg_left (Nat.cast_nonneg _) hp1 hper.le
  refine ⟨?_, ?_, ?_⟩
  · rw [hd1, hd2]; exact hle
  · intro hpos
    rw [hd1, hd2]
    exact div_lt_div_of_pos_left (by exact_mod_cast hpos) hp1 hper
  · intro had
    have hrec : calculateRecommendedDensity c1 = calculateRecommendedDensity c2 := by
      unfold calculateRecommendedDensity
      rw [hlev]
    simp only [checkSensorQuantity, decide_eq_true_eq] at had ⊢
    rw [hrec]
    refine le_trans had ?_
    rw [← hn]
    exact hle

-- C8.

/-- C8: the range-coverage checker counts as "outside" exactly the sensors
whose squared radial distance exceeds `(max(length,width)/2)²` (the squared
form of `distance > max(length,width)/2`), reports the maximum squared
radial distance over all sensors (0 when none) and a recommended maximum of
`max(length,width)·1.5`, and emits the peripheral-coverage warning exactly
when the outside count is below 30% of the total sensor count. -/
theorem checkMonitoringRange_characterization (config : Config) (sensors : List Sensor)
    (results : ValidationResults) (hv : ValidConfig config) :
    (checkMonitoringRange config sensors results).1.total = sensors.length ∧
    (checkMonitoringRange config sensors results).1.outside =
      sensors.countP (fun s =>
        decide ((max config.dimensions.length config.dimensions.width / 2) ^ 2 <
          distSq s)) ∧
    (∀ s ∈ sensors,
      distSq s ≤ (checkMonitoringRange config sensors results).1.maxDistanceSq) ∧
    ((checkMonitoringRange config sensors results).1.maxDistanceSq = 0 ∨
      ∃ s ∈ sensors,
        (checkMonitoringRange config sensors results).1.maxDistanceSq = distSq s) ∧
    (sensors = [] → (checkMonitoringRange config sensors results).1.maxDistanceSq = 0) ∧
    (checkMonitoringRange config sensors results).1.recommendedMaxDistance =
      max config.dimensions.length config.dimensions.width * 1.5 ∧
    ((checkMonitoringRange config sensors results).2.warnings =
        results.warnings ++ [peripheralMsg] ↔
      (((checkMonitoringRange config sensors results).1.outside : ℚ) <
        (sensors.length : ℚ) * 0.3)) ∧
    (¬(((checkMonitoringRange config sensors results).1.outside : ℚ) <
        (sensors.length : ℚ) * 0.3) →
      (checkMonitoringRange config sensors results).2.warnings = results.warnings) ∧
    (checkMonitoringRange config sensors results).2.errors = results.errors ∧
    (checkMonitoringRange config sensors results).2.suggestions = results.suggestions := by
  obtain ⟨-, -, hl, hw, -⟩ := hv
  have hb : (0 : ℚ) ≤ max config.dimensions.length config.dimensions.width / 2 := by
    have h1 : (0 : ℚ) < max config.dimensions.length config.dimensions.width :=
      lt_of_lt_of_le hl (le_max_left _ _)
    linarith
  have hbound : ∀ s : Sensor,
      sqrtGtBound (distSq s) (max config.dimensions.length config.dimensions.width / 2) =
        decide ((max config.dimensions.length config.dimensions.width / 2) ^ 2 <
          distSq s) := by
    intro s
    simp [sqrtGtBound, decide_eq_false (not_lt.mpr hb)]
  refine ⟨rfl, ?_, ?_, ?_, ?_, rfl, ?_, ?_, ?_, ?_⟩
  · show (sensors.filter _).length = _
    rw [← List.countP_eq_length_filter]
    exact List.countP_congr (fun s _ => by rw [hbound s])
  · intro s hs
    exact le_foldl_max_of_mem _ 0 _ (List.mem_map_of_mem distSq hs)
  · rcases foldl_max_eq_init_or_mem (sensors.map distSq) 0 with h | h
    · exact Or.inl h
    · obtain ⟨s, hs, hds⟩ := List.mem_map.mp h
      exact Or.inr ⟨s, hs, hds.symm⟩
  · intro h
    subst h
    rfl
  · rw [checkMonitoringRange_snd]
    by_cases hcond : (((sensors.filter (fun s => sqrtGtBound (distSq s)
        (max config.dimensions.length config.dimensions.width / 2))).length : ℚ) <
        (sensors.length : ℚ) * 0.3)
    · constructor
      · intro _
        exact hcond
      · intro _
        simp [rangeAppendedWarnings, hcond]
    · constructor
      · intro hcontra
        simp only [rangeAppendedWarnings, if_neg hcond, List.append_nil] at hcontra
        simp at hcontra
      · intro hcond2
        exact absurd hcond2 hcond
  · intro hcond
    rw [checkMonitoringRange_snd]
    have hcond' : ¬(((sensors.filter (fun s => sqrtGtBound (distSq s)
        (max config.dimensions.length config.dimensions.width / 2))).length : ℚ) <
        (sensors.length : ℚ) * 0.3) := hcond
    simp [rangeAppendedWarnings, hcond']
  · rw [checkMonitoringRange_snd]
  · rw [checkMonitoringRange_snd]

-- C9.

/-- The sensors the wall-displacement check operates on. -/
def wallSensorsOf (sensors : List Sensor) : List Sensor :=
  sensors.filter
    (fun s => s.type == "horizontal-displacement" || s.type == "vertical-displacement")

/-- Number of the four sides (east, west, north, south, by the proximity
classification) with fewer than 3 classified sensors. -/
def missingMiddleCount (sensors : List Sensor) (length width : ℚ) : Nat :=
  ([sensors.countP (fun s =>
      classifySide s.position.x s.position.z length width == some Side.east),
    sensors.countP (fun s =>
      classifySide s.position.x s.position.z length width == some Side.west),
    sensors.countP (fun s =>
      classifySide s.position.x s.position.z length width == some Side.north),
    sensors.countP (fun s =>
      classifySide s.position.x s.position.z length width == some Side.south)] :
    List Nat).countP (fun n => decide (n < 3))

/-- Number of the four corners with no sensor within 5 distance units. -/
def missingCornerCount (sensors : List Sensor) (length width : ℚ) : Nat :=
  (cornersList length width).countP
    (fun corner => !sensors.any (fun s => nearCorner s corner))

theorem identifyCriticalPositions_eq (sensors : List Sensor) (length width : ℚ) :
    identifyCriticalPositions sensors length width =
      (missingMiddleCount sensors length width,
       missingCornerCount sensors length width) := by
  simp only [identifyCriticalPositions, missingMiddleCount, missingCornerCount,
    tallySides_east, tallySides_west, tallySides_north, tallySides_south,
    List.countP_eq_length_filter]

/-- C9: the wall-displacement layout check, over the horizontal- and
vertical-displacement sensors, appends: the general warning exactly when
their combined count is below 12; a warning carrying the number of sides
with fewer than 3 classified sensors exactly when that number is positive;
and a warning carrying the number of corners with no sensor within 5 units
exactly when that number is positive — in that order. -/
theorem checkWallDisplacementLayout_characterization (sensors : List Sensor)
    (length width : ℚ) (results : ValidationResults) :
    (checkWallDisplacementLayout sensors length width results).2.warnings =
      results.warnings ++
        ((if (wallSensorsOf sensors).length < 12 then [wallCountMsg] else []) ++
         (if 0 < missingMiddleCount (wallSensorsOf sensors) length width then
            [missingMiddleMsg (missingMiddleCount (wallSensorsOf sensors) length width)]
          else []) ++
         (if 0 < missingCornerCount (wallSensorsOf sensors) length width then
            [missingCornerMsg (missingCornerCount (wallSensorsOf sensors) length width)]
          else [])) ∧
    (checkWallDisplacementLayout sensors length width results).2.errors =
      results.errors ∧
    (checkWallDisplacementLayout sensors length width results).2.suggestions =
      results.suggestions := by
  rw [checkWallDisplacementLayout_snd]
  refine ⟨?_, rfl, rfl⟩
  simp [wallAppendedWarnings, identifyCriticalPositions_eq, wallSensorsOf]

-- C10.

theorem tallySides_sum_le (sensors : List Sensor) (length width : ℚ) :
    (tallySides sensors length width).east + (tallySides sensors length width).west +
      (tallySides sensors length width).north +
      (tallySides sensors length width).south ≤ sensors.length := by
  induction sensors with
  | nil => simp [tallySides]
  | cons s rest ih =>
    rcases hc : classifySide s.position.x s.position.z length width with _ | side
    · simp only [tallySides, hc, List.length_cons]
      omega
    · cases side <;> (simp only [tallySides, hc, List.length_cons]; omega)

/-- C10: the side classification tests east, then west, then north, then
south, in that priority order, and assigns each sensor to at most one side;
a sensor near an x-edge is counted for east or west and never for north or
south, and the four side tallies together never exceed the sensor count. -/
theorem classifySide_priority_order (x z length width : ℚ) :
    (|x - length / 2| < 2 → classifySide x z length width = some Side.east) ∧
    (¬|x - length / 2| < 2 → |x + length / 2| < 2 →
      classifySide x z length width = some Side.west) ∧
    (¬|x - length / 2| < 2 → ¬|x + length / 2| < 2 → |z - width / 2| < 2 →
      classifySide x z length width = some Side.north) ∧
    (¬|x - length / 2| < 2 → ¬|x + length / 2| < 2 → ¬|z - width / 2| < 2 →
      |z + width / 2| < 2 → classifySide x z length width = some Side.south) ∧
    ((|x - length / 2| < 2 ∨ |x + length / 2| < 2) →
      ∀ side, classifySide x z length width = some side →
        side = Side.east ∨ side = Side.west) ∧
    (∀ sensors : List Sensor,
      (tallySides sensors length width).east + (tallySides sensors length width).west +
        (tallySides sensors length width).north +
        (tallySides sensors length width).south ≤ sensors.length) := by
  refine ⟨?_, ?_, ?_, ?_, ?_, fun sensors => tallySides_sum_le sensors length width⟩
  · intro h1
    simp [classifySide, h1]
  · intro h1 h2
    simp [classifySide, h1, h2]
  · intro h1 h2 h3
    simp [classifySide, h1, h2, h3]
  · intro h1 h2 h3 h4
    simp [classifySide, h1, h2, h3, h4]
  · rintro (h1 | h1) side hside
    · simp only [classifySide, if_pos h1] at hside
      injection hside with h'
      exact Or.inl h'.symm
    · by_cases h0 : |x - length / 2| < 2
      · simp only [classifySide, if_pos h0] at hside
        injection hside with h'
        exact Or.inl h'.symm
      · simp only [classifySide, if_neg h0, if_pos h1] at hside
        injection hside with h'
        exact Or.inr h'.symm

-- Concrete runs.  Batteries marks the `Rat` field arithmetic
-- `@[irreducible]`; within this section we restore the default
-- transparency so concrete runs of the validator evaluate by `decide`/`rfl`
-- (kernel reduction ignores reducibility attributes, so no statement
-- changes meaning).

section ConcreteRuns

attribute [local semireducible] Rat.mul Rat.add Rat.sub Rat.inv Rat.ofScientific

/-- Scenario A configuration: soil, level 1, 30×20×10. -/
def cfgA : Config :=
  { type := "soil", safetyLevel := 1,
    dimensions := { length := 30, width := 20, depth := 10 } }

/-- The requirement set the table assigns to (soil, 1). -/
def reqSoil1 : RequirementSet :=
  { required := ["horizontal-displacement", "vertical-displacement",
                 "deep-horizontal", "support-force", "water-level",
                 "ground-settlement"],
    recommended := ["anchor-force"],
    optional := ["wall-internal-force", "pore-pressure", "soil-pressure"] }

/-- The report of the scenario-A run with no sensors. -/
def reportA : ValidationResults := (validateLayout cfgA []).toOption.getD initialResults

/-- C1: evaluating the code at the failing input — for composition
"unknown" (safety level 1) the lookup
`monitoringRequirements[config.type][config.safetyLevel]` throws a
TypeError (modelled as `.error .typeError`) instead of returning the
single-error report required by the spec; the `!requirements` guard is
never reached. -/
theorem validateLayout_unknown_composition_typeError :
    validateLayout
      { type := "unknown", safetyLevel := 1,
        dimensions := { length := 30, width := 20, depth := 10 } } [] =
      Except.error JsError.typeError := rfl

/-- Witness for C2 at scenario A. -/
theorem validateLayout_isValid_iff_errors_empty_witness :
    reportA.isValid = true ↔ reportA.errors = [] :=
  validateLayout_isValid_iff_errors_empty cfgA [] reportA (by rfl)

/-- Witness for C3: scenario A (soil, level 1, empty sensor list) yields
exactly the six missing-required-category errors and `isValid = false`. -/
theorem validateLayout_errors_when_required_absent_witness :
    (reportA.errors = reqSoil1.required.map missingRequiredMsg ∧
      reportA.errors.length = reqSoil1.required.length) ∧
    reportA.errors.length = 6 ∧ reportA.isValid = false :=
  ⟨validateLayout_errors_when_required_absent cfgA [] reqSoil1 reportA (by decide)
      (by decide) (by rfl),
   by decide, by decide⟩

/-- Witness for C4 at the (soil, 1) requirement lists and no sensors. -/
theorem checkRequired_and_recommended_characterization_witness :
    (checkRequiredSensors reqSoil1.required [] initialResults).2.errors =
      initialResults.errors ++
        (reqSoil1.required.filter (fun t => countType [] t == 0)).map
          missingRequiredMsg :=
  (checkRequired_and_recommended_characterization reqSoil1.required
    reqSoil1.recommended [] initialResults).1

/-- A configuration whose safety level (4) is outside the table. -/
def unresolvedLevelConfig : Config :=
  { type := "soil", safetyLevel := 4,
    dimensions := { length := 30, width := 20, depth := 10 } }

/-- C5 counterexample: this run of `validateLayout` returns normally, yet
its suggestion list is empty — none of the three monitoring-necessity
suggestions was emitted, refuting "exactly one ... per run, always". -/
theorem necessity_suggestion_absent_on_unresolved :
    validateLayout unresolvedLevelConfig [] =
      Except.ok { initialResults with
        errors := [requirementNotFoundMsg "soil" 4], isValid := false } ∧
    ({ initialResults with
        errors := [requirementNotFoundMsg "soil" 4],
        isValid := false } : ValidationResults).suggestions = [] := ⟨rfl, rfl⟩

/-- Witness for C5 (amended) at scenario A. -/
theorem necessity_suggestion_exactly_one_of_three_witness :
    reportA.suggestions.count necessityMandatoryMsg +
      reportA.suggestions.count necessityShouldMsg +
      reportA.suggestions.count necessityDiscretionaryMsg = 1 :=
  (necessity_suggestion_exactly_one_of_three cfgA [] reqSoil1 reportA
    (by decide) (by rfl)).1

/-- Witness for C6 at scenario A. -/
theorem checkSensorQuantity_characterization_witness :
    (checkSensorQuantity cfgA [] initialResults).1.recommended =
      calculateRecommendedDensity cfgA ∧
    (checkSensorQuantity cfgA [] initialResults).2 = initialResults :=
  ⟨(checkSensorQuantity_characterization cfgA [] initialResults
      (by unfold ValidConfig; decide)).2.2.1,
   (checkSensorQuantity_characterization cfgA [] initialResults
      (by unfold ValidConfig; decide)).2.2.2.2.2⟩

/-- Same pit as `cfgA` but 10 units longer: perimeter 120 instead of 100. -/
def cfgWide : Config :=
  { type := "soil", safetyLevel := 1,
    dimensions := { length := 40, width := 20, depth := 10 } }

/-- C7 counterexample: with zero sensors both densities are 0, so the
density of the larger-perimeter run is NOT strictly smaller, although the
perimeter is strictly larger and count and safety level agree. -/
theorem density_not_strictly_smaller_zero_sensors :
    2 * (cfgA.dimensions.length + cfgA.dimensions.width) <
      2 * (cfgWide.dimensions.length + cfgWide.dimensions.width) ∧
    cfgA.safetyLevel = cfgWide.safetyLevel ∧
    ¬((checkSensorQuantity cfgWide [] initialResults).1.density <
      (checkSensorQuantity cfgA [] initialResults).1.density) := by decide

/-- Witness for C7 (amended). -/
theorem density_antitone_perimeter_witness :
    (checkSensorQuantity cfgWide [] initialResults).1.density ≤
      (checkSensorQuantity cfgA [] initialResults).1.density :=
  (density_antitone_perimeter cfgA cfgWide [] [] initialResults initialResults
    (by unfold ValidConfig; decide) (by unfold ValidConfig; decide) rfl rfl
    (by decide)).1

/-- One sensor 20 units east of pit center (outside the 15-unit radius). -/
def sensorsR : List Sensor :=
  [{ type := "ground-settlement", position := { x := 20, y := 0, z := 0 } }]

/-- Witness for C8. -/
theorem checkMonitoringRange_characterization_witness :
    (checkMonitoringRange cfgA sensorsR initialResults).1.outside =
      sensorsR.countP (fun s =>
        decide ((max cfgA.dimensions.length cfgA.dimensions.width / 2) ^ 2 <
          distSq s)) ∧
    (checkMonitoringRange cfgA sensorsR initialResults).1.recommendedMaxDistance =
      max cfgA.dimensions.length cfgA.dimensions.width * 1.5 :=
  ⟨(checkMonitoringRange_characterization cfgA sensorsR initialResults
      (by unfold ValidConfig; decide)).2.1,
   (checkMonitoringRange_characterization cfgA sensorsR initialResults
      (by unfold ValidConfig; decide)).2.2.2.2.2.1⟩

/-- One wall-displacement sensor on the east edge midpoint. -/
def sensorsW : List Sensor :=
  [{ type := "horizontal-displacement", position := { x := 15, y := 0, z := 0 } }]

/-- Witness for C9. -/
theorem checkWallDisplacementLayout_characterization_witness :
    (checkWallDisplacementLayout sensorsW 30 20 initialResults).2.errors =
      initialResults.errors :=
  (checkWallDisplacementLayout_characterization sensorsW 30 20 initialResults).2.1

/-- Witness for C10: the corner point (15, 10) of a 30×20 pit is within 2
units of both the east x-edge and the north z-edge; the classifier assigns
east. -/
theorem classifySide_priority_order_witness :
    classifySide 15 10 30 20 = some Side.east :=
  (classifySide_priority_order 15 10 30 20).1 (by decide)

end ConcreteRuns

end GB50497
